import Mathlib

/-!
Shallow embedding of the state-synchronization core of the Spotify desktop
widget (src/spotify_widget.py): the playback-state store and its writes, the
poller loop, the progress-bar extrapolation, the UI queue drain, the command
dispatcher with local-backend fallback, and the bounded album-art cache.

Conventions: PIL images are abstracted to numeric identifiers; exceptions of
the Python client are modelled with Except; wall-clock readings of
time.time() (seconds) are rationals.
-/

/-- A track object as returned by the remote playback query
(playback["item"] in spotify_widget.py): its name, artist names, album image
URLs (first one is used) and duration in milliseconds. -/
structure Item where
  name : String
  artists : List String
  images : List String
  duration_ms : Nat
  deriving DecidableEq

/-- The remote current-playback response: an optional track item, the
is_playing flag and the progress in milliseconds (dict defaults of the code
already applied: progress_ms defaults to 0). -/
structure Playback where
  item : Option Item
  is_playing : Bool
  progress_ms : Nat
  deriving DecidableEq

/-- Errors raised by the remote (Spotify Web API) client, according to the
message substrings that _handle_spotify_api_error matches on
(spotify_widget.py lines 675-697). -/
inductive SpError where
  | noActiveDevice
  | insufficientScope
  | deviceNotFound
  | other (msg : String)
  deriving DecidableEq

/-- The _song_state dictionary of SpotifyWidget: each field models the
presence or absence of the corresponding key.  The album_art_url key can hold
None itself, hence the nested Option. -/
structure SongDict where
  song_name : Option String := none
  artist_name : Option String := none
  is_playing : Option Bool := none
  album_art_url : Option (Option String) := none
  progress_ms : Option Nat := none
  duration_ms : Option Nat := none
  last_update_time : Option ℚ := none
  album_art_pil : Option Nat := none
  deriving DecidableEq

/-- The empty dict, the initial value of self._song_state. -/
def emptySongDict : SongDict := {}

/-- The shared playback store: self._song_state together with the
self.is_playing flag, both written under self._state_lock. -/
structure Store where
  song_state : SongDict
  is_playing : Bool
  deriving DecidableEq

/-- The three writes the code performs on _song_state: the success update of
_fetch_playback_data (lines 777-792), the idle reset (line 797), and the
auth-failure sentinel of _spotify_update_loop (line 731). -/
inductive StoreWrite where
  | track (pb : Playback) (it : Item) (art : Option Nat) (now : ℚ)
  | idle
  | auth
  deriving DecidableEq

/-- Apply one locked _song_state write, exactly as the code does: the track
write first stores album_art_pil when a new image was decoded, then updates
the seven keys of the update({...}) call in one locked block; the idle write
replaces the dict by {}; the auth write replaces it by the sentinel dict. -/
def apply_store_write : StoreWrite → SongDict → SongDict
  | .track pb it art now, d =>
      let d1 :=
        match art with
        | some img => { d with album_art_pil := some img }
        | none => d
      { d1 with
        is_playing := some pb.is_playing,
        song_name := some it.name,
        artist_name := some (String.intercalate (", ") it.artists),
        album_art_url := some it.images.head?,
        progress_ms := some pb.progress_ms,
        duration_ms := some (if it.duration_ms = 0 then 1 else it.duration_ms),
        last_update_time := some now }
  | .idle, _ => emptySongDict
  | .auth, _ => { emptySongDict with song_name := some ("Auth Error") }

/-- One call of _fetch_playback_data (lines 745-804) after self.sp exists:
q is the outcome of sp.current_playback(), now the time.time() reading, art
the optionally decoded new album art.  Returns the new store and whether a
UI update was scheduled.  A raised exception is caught by the outer
try/except (line 803): the store is untouched and no UI update scheduled. -/
def fetch_store_update (q : Except SpError (Option Playback)) (now : ℚ)
    (art : Option Nat) (st : Store) : Store × Bool :=
  match q with
  | .error _ => (st, false)
  | .ok pb =>
    match pb with
    | some p =>
      match p.item with
      | some it =>
          ({ song_state := apply_store_write (.track p it art now) st.song_state,
             is_playing := p.is_playing }, true)
      | none => ({ song_state := emptySongDict, is_playing := false }, true)
    | none => ({ song_state := emptySongDict, is_playing := false }, true)

/-- The idle store: is_playing False, empty song dict. -/
def idle_store : Store := { song_state := emptySongDict, is_playing := false }

/-- The terminal auth-error store published when SpotifyOAuth setup fails. -/
def auth_error_store : Store :=
  { song_state := apply_store_write .auth emptySongDict, is_playing := false }

/-- One modelled iteration opportunity of the polling while-loop: whether the
stop event is set at the top-of-loop check, and the inputs of the fetch that
runs when it is not. -/
structure PollCycle where
  stop : Bool
  query : Except SpError (Option Playback)
  now : ℚ
  art : Option Nat

/-- The while-loop of _spotify_update_loop (lines 736-743): check the stop
event, fetch, sleep one poll interval, repeat.  Returns the final store and
the number of remote queries issued. -/
def update_loop_cycles : List PollCycle → Store → Store × Nat
  | [], st => (st, 0)
  | c :: rest, st =>
    if c.stop then (st, 0)
    else
      let r := update_loop_cycles rest (fetch_store_update c.query c.now c.art st).1
      (r.1, r.2 + 1)

/-- _spotify_update_loop (lines 713-743): when the SpotifyOAuth setup fails
the sentinel Auth Error state is published and the loop never starts;
otherwise the polling loop runs. -/
def spotify_update_loop (auth_ok : Bool) (cycles : List PollCycle) (st : Store) :
    Store × Nat :=
  if auth_ok then update_loop_cycles cycles st else (auth_error_store, 0)

/-- A _song_state snapshot holding exactly a playback observation:
progress_ms = p, duration_ms = d, last_update_time = t0. -/
def snapshot_dict (p d : Nat) (t0 : ℚ) : SongDict :=
  { progress_ms := some p, duration_ms := some d, last_update_time := some t0 }

/-- The progress computation of _animate_progress_bar (lines 813-817):
elapsed = (time.time() - last_update_time) * 1000, current = progress + elapsed,
fill fraction = min(current / max(1, duration), 1.0). -/
def animate_progress_fraction (st : SongDict) (now : ℚ) : ℚ :=
  let elapsed := (now - st.last_update_time.getD 0) * 1000
  let current_progress := (st.progress_ms.getD 0 : ℚ) + elapsed
  let duration : ℚ := max 1 (st.duration_ms.getD 1 : ℚ)
  min (current_progress / duration) 1

/-- One tick of _animate_progress_bar (lines 806-830).  The canvas argument
is the outcome of the toolkit drawing calls of the try block; an exception
there is caught and logged and, like every path, ends in the finally block
that reschedules the timer.  Returns (drawn fraction, logged error,
rescheduled). -/
def animate_progress_bar_tick (canvas : Except String Unit) (st : Store)
    (now : ℚ) : Option ℚ × Option String × Bool :=
  match canvas with
  | .error e => (none, some e, true)
  | .ok _ =>
    if st.is_playing ∧ st.song_state ≠ emptySongDict then
      (some (animate_progress_fraction st.song_state now), none, true)
    else
      (none, none, true)

/-- One tick of _process_ui_queue (lines 183-195).  Each queued callback is
modelled by its execution outcome.  The drain runs until the queue is empty
(inner queue.Empty break) or a callback raises; a raised exception reaches
the outer except, is logged, and the rest of the queue stays for the next
tick; the finally block always reschedules.  Returns (logged error,
remaining queue, rescheduled). -/
def process_ui_queue : List (Except String Unit) →
    Option String × List (Except String Unit) × Bool
  | [] => (none, [], true)
  | .ok _ :: rest => process_ui_queue rest
  | .error e :: rest => (some e, rest, true)

/-- The user-visible dialogs scheduled by _handle_spotify_api_error. -/
inductive Dialog where
  | warnNoActiveDevice (action : String)
  | errPermission (action : String)
  | warnDeviceError (action : String)
  | errSpotify (action : String) (msg : String)
  deriving DecidableEq

/-- _handle_spotify_api_error (lines 675-697): classify the error by its
message and schedule the matching messagebox; unclassified messages are
truncated to 100 characters. -/
def handle_spotify_api_error (e : SpError) (action : String) : Dialog :=
  match e with
  | .noActiveDevice => .warnNoActiveDevice action
  | .insufficientScope => .errPermission action
  | .deviceNotFound => .warnDeviceError action
  | .other msg => .errSpotify action (msg.take 100)

/-- Observable effects of one command-worker run: remote calls attempted,
local (winsdk) fallback invocations, render requests enqueued via
_schedule_ui_update(self.update_ui_with_state), and dialogs scheduled. -/
structure CmdEffects where
  query_calls : Nat := 0
  pause_calls : Nat := 0
  start_calls : Nat := 0
  next_calls : Nat := 0
  prev_calls : Nat := 0
  secondary_calls : Nat := 0
  render_requests : Nat := 0
  dialogs : List Dialog := []
  deriving DecidableEq

/-- The behaviour of the remote client self.sp for one worker run: the
outcome each method call would have. -/
structure RemoteBackend where
  current_playback : Except SpError (Option Playback)
  pause_playback : Except SpError Unit
  start_playback : Except SpError Unit
  next_track_call : Except SpError Unit
  previous_track_call : Except SpError Unit

/-- The control_task body of _toggle_play_pause (lines 856-883): a fresh
current_playback query decides between pause and start; any exception from
the Spotify client is classified (dialog) and then the Windows fallback runs
once when available.  cached_is_playing is the widget's last-polled
self.is_playing flag, available to the worker but never consulted.  The
worker never writes the store. -/
def toggle_control_task (sp : Option RemoteBackend)
    (is_windows _cached_is_playing : Bool) (st : Store) : Store × CmdEffects :=
  match sp with
  | none => (st, { secondary_calls := if is_windows then 1 else 0 })
  | some b =>
    match b.current_playback with
    | .error e =>
        (st, { query_calls := 1,
               secondary_calls := if is_windows then 1 else 0,
               dialogs := [handle_spotify_api_error e ("play/pause")] })
    | .ok pb =>
      if (match pb with | some p => p.is_playing | none => false) then
        match b.pause_playback with
        | .ok _ => (st, { query_calls := 1, pause_calls := 1 })
        | .error e =>
            (st, { query_calls := 1, pause_calls := 1,
                   secondary_calls := if is_windows then 1 else 0,
                   dialogs := [handle_spotify_api_error e ("play/pause")] })
      else
        match b.start_playback with
        | .ok _ => (st, { query_calls := 1, start_calls := 1 })
        | .error e =>
            (st, { query_calls := 1, start_calls := 1,
                   secondary_calls := if is_windows then 1 else 0,
                   dialogs := [handle_spotify_api_error e ("play/pause")] })

/-- The control_task body of _next_track (lines 885-907). -/
def next_control_task (sp : Option RemoteBackend) (is_windows : Bool)
    (st : Store) : Store × CmdEffects :=
  match sp with
  | none => (st, { secondary_calls := if is_windows then 1 else 0 })
  | some b =>
    match b.next_track_call with
    | .ok _ => (st, { next_calls := 1 })
    | .error e =>
        (st, { next_calls := 1,
               secondary_calls := if is_windows then 1 else 0,
               dialogs := [handle_spotify_api_error e ("skip to next track")] })

/-- The control_task body of _prev_track (lines 909-931). -/
def prev_control_task (sp : Option RemoteBackend) (is_windows : Bool)
    (st : Store) : Store × CmdEffects :=
  match sp with
  | none => (st, { secondary_calls := if is_windows then 1 else 0 })
  | some b =>
    match b.previous_track_call with
    | .ok _ => (st, { prev_calls := 1 })
    | .error e =>
        (st, { prev_calls := 1,
               secondary_calls := if is_windows then 1 else 0,
               dialogs := [handle_spotify_api_error e ("skip to previous track")] })

/-- Python dict assignment on an insertion-ordered association list: an
existing key keeps its position and gets the new value, a fresh key is
appended at the end (self._album_art_cache[url] = img). -/
def dict_set {K V : Type} [DecidableEq K] (c : List (K × V)) (k : K) (v : V) :
    List (K × V) :=
  if c.any (fun p => decide (p.1 = k)) then
    c.map (fun p => if p.1 = k then (k, v) else p)
  else
    c ++ [(k, v)]

/-- self._album_art_cache.get(url) on the ordered association list. -/
def album_art_cache_get {K V : Type} [DecidableEq K] (c : List (K × V))
    (k : K) : Option V :=
  (c.find? (fun p => decide (p.1 = k))).map Prod.snd

/-- The cache insertion block of _fetch_playback_data (lines 768-773): store
the entry, then, in LOW_END_MODE only, when the size exceeds 5, delete the
oldest key (next(iter(dict)) = first inserted). -/
def album_art_cache_put {K V : Type} [DecidableEq K] (low_end : Bool)
    (c : List (K × V)) (k : K) (v : V) : List (K × V) :=
  let c1 := dict_set c k v
  if low_end ∧ 5 < c1.length then c1.drop 1 else c1

/-- A sequence of cache insertions (distinct artwork URLs fetched in turn by
successive poll cycles), applied left to right. -/
def cache_after_puts (low_end : Bool) (inserts : List (Nat × Nat))
    (c : List (Nat × Nat)) : List (Nat × Nat) :=
  inserts.foldl (fun acc kv => album_art_cache_put low_end acc kv.1 kv.2) c

/-- A remote client whose every call raises a No-active-device error. -/
def all_fail_no_device : RemoteBackend :=
  { current_playback := .error .noActiveDevice,
    pause_playback := .error .noActiveDevice,
    start_playback := .error .noActiveDevice,
    next_track_call := .error .noActiveDevice,
    previous_track_call := .error .noActiveDevice }

/-- A remote client reporting an actively playing session and accepting every
transport command. -/
def playing_ok_backend : RemoteBackend :=
  { current_playback := .ok (some { item := none, is_playing := true, progress_ms := 0 }),
    pause_playback := .ok (),
    start_playback := .ok (),
    next_track_call := .ok (),
    previous_track_call := .ok () }

/-! ## Theorems -/

/-- C6: a poll cycle whose remote playback query raises leaves the Store
exactly unchanged and schedules no UI update; an error cycle still counts as
one issued query and hands the unchanged store to the next cycle; when the
stop signal never fires the loop issues exactly one query per cycle (none
skipped); a set stop signal terminates the loop; an authorization failure at
setup terminates with the sentinel state and zero queries. -/
theorem poll_cycle_resilience :
    (∀ e now art st, fetch_store_update (.error e) now art st = (st, false))
  ∧ (∀ e now art rest st,
      update_loop_cycles
          ({ stop := false, query := .error e, now := now, art := art } :: rest) st
        = ((update_loop_cycles rest st).1, (update_loop_cycles rest st).2 + 1))
  ∧ (∀ cycles st, (∀ c ∈ cycles, c.stop = false) →
      (update_loop_cycles cycles st).2 = cycles.length)
  ∧ (∀ c rest st, c.stop = true → update_loop_cycles (c :: rest) st = (st, 0))
  ∧ (∀ cycles st, spotify_update_loop false cycles st = (auth_error_store, 0)) := by
  refine ⟨?_, ?_, ?_, ?_, ?_⟩
  · intro e now art st; rfl
  · intro e now art rest st; rfl
  · intro cycles
    induction cycles with
    | nil => intro st h; rfl
    | cons c rest ih =>
      intro st h
      have hc : c.stop = false := h c (List.mem_cons_self c rest)
      have hrest : ∀ x ∈ rest, x.stop = false :=
        fun x hx => h x (List.mem_cons_of_mem c hx)
      simp [update_loop_cycles, hc, ih _ hrest]
  · intro c rest st hstop
    simp [update_loop_cycles, hstop]
  · intro cycles st; rfl

/-- C6 witness: a transient network error during a cycle, then one more
query: the store is unchanged and both queries are issued. -/
theorem poll_cycle_resilience_check :
    fetch_store_update (.error (.other ("timeout"))) 0 none idle_store
      = (idle_store, false)
  ∧ (update_loop_cycles
      [{ stop := false, query := .error (.other ("timeout")), now := 0, art := none },
       { stop := false, query := .ok none, now := 1, art := none }] idle_store).2 = 2 := by
  refine ⟨poll_cycle_resilience.1 (.other ("timeout")) 0 none idle_store, ?_⟩
  rw [poll_cycle_resilience.2.2.1 _ idle_store
    (by intro c hc; simp only [List.mem_cons, List.not_mem_nil, or_false] at hc
        rcases hc with h | h <;> subst h <;> rfl)]
  rfl

/-- C7: a successful remote query with no active session writes the idle
state (empty dict, song name absent, is_playing false) -- also when the
response carries no item; an authorization failure at startup publishes the
sentinel store whose song_name is "Auth Error"; the two stores are distinct
values, so no reader of the Store can conflate them. -/
theorem idle_vs_auth_error :
    (∀ now art st, fetch_store_update (.ok none) now art st = (idle_store, true))
  ∧ (∀ p now art st, p.item = none →
      fetch_store_update (.ok (some p)) now art st = (idle_store, true))
  ∧ (∀ cycles st, spotify_update_loop false cycles st = (auth_error_store, 0))
  ∧ idle_store.song_state.song_name = none
  ∧ auth_error_store.song_state.song_name = some ("Auth Error")
  ∧ idle_store ≠ auth_error_store := by
  refine ⟨?_, ?_, ?_, rfl, rfl, ?_⟩
  · intro now art st; rfl
  · intro p now art st h
    obtain ⟨item, ipl, prog⟩ := p
    cases item with
    | none => rfl
    | some it => exact Option.noConfusion h
  · intro cycles st; rfl
  · decide

/-- C7 witness: a no-item playback response written over the auth store
yields exactly the idle store. -/
theorem idle_vs_auth_error_check :
    fetch_store_update
        (.ok (some { item := none, is_playing := true, progress_ms := 5 }))
        3 none auth_error_store
      = (idle_store, true) :=
  idle_vs_auth_error.2.1 { item := none, is_playing := true, progress_ms := 5 }
    3 none auth_error_store rfl

/-- C8: every write the code performs on _song_state determines progress_ms
and last_update_time as a pair: the written values do not depend on the prior
dict (both fields are overwritten in the same locked write, never one
without the other), every write leaves the pair self-consistent (present
together or absent together), and hence every dict reachable from the initial
empty dict by a sequence of locked writes has a self-consistent pair. -/
theorem progress_pair_atomic :
    (∀ w : StoreWrite, ∀ d d' : SongDict,
        (apply_store_write w d).progress_ms = (apply_store_write w d').progress_ms
      ∧ (apply_store_write w d).last_update_time
          = (apply_store_write w d').last_update_time)
  ∧ (∀ w d, ((apply_store_write w d).progress_ms.isSome
      ↔ (apply_store_write w d).last_update_time.isSome))
  ∧ (∀ ws : List StoreWrite,
      ((ws.foldl (fun d w => apply_store_write w d) emptySongDict).progress_ms.isSome
        ↔ (ws.foldl (fun d w => apply_store_write w d) emptySongDict).last_update_time.isSome)) := by
  have hinv : ∀ w d, ((apply_store_write w d).progress_ms.isSome
      ↔ (apply_store_write w d).last_update_time.isSome) := by
    intro w d
    cases w with
    | track pb it art now => cases art <;> exact Iff.rfl
    | idle => exact Iff.rfl
    | auth => exact Iff.rfl
  refine ⟨?_, hinv, ?_⟩
  · intro w d d'
    cases w with
    | track pb it art now => cases art <;> exact ⟨rfl, rfl⟩
    | idle => exact ⟨rfl, rfl⟩
    | auth => exact ⟨rfl, rfl⟩
  · intro ws
    have key : ∀ (ws : List StoreWrite) (d : SongDict),
        (d.progress_ms.isSome ↔ d.last_update_time.isSome) →
        ((ws.foldl (fun d w => apply_store_write w d) d).progress_ms.isSome
          ↔ (ws.foldl (fun d w => apply_store_write w d) d).last_update_time.isSome) := by
      intro ws
      induction ws with
      | nil => intro d h; exact h
      | cons w ws ih => intro d _; exact ih _ (hinv w d)
    exact key ws emptySongDict Iff.rfl

/-- C9: the UI-queue drain tick and the progress-animation tick always end
in their finally blocks and reschedule, whatever the queued callbacks or the
drawing calls do; the first raising callback is caught and logged (not
propagated) with the rest of the queue kept for the next tick, and a raising
animation body is caught and logged while the timer is still rescheduled. -/
theorem ui_tick_catches_faults :
    (∀ q, (process_ui_queue q).2.2 = true)
  ∧ (∀ canvas st now, (animate_progress_bar_tick canvas st now).2.2 = true)
  ∧ (∀ pre e rest, (∀ c ∈ pre, c = .ok ()) →
      process_ui_queue (pre ++ .error e :: rest) = (some e, rest, true))
  ∧ (∀ e st now, animate_progress_bar_tick (.error e) st now = (none, some e, true)) := by
  refine ⟨?_, ?_, ?_, ?_⟩
  · intro q
    induction q with
    | nil => rfl
    | cons c rest ih =>
      cases c with
      | ok u => cases u; exact ih
      | error e => rfl
  · intro canvas st now
    cases canvas with
    | error e => rfl
    | ok u =>
      cases u
      simp only [animate_progress_bar_tick]
      split <;> rfl
  · intro pre e rest
    induction pre with
    | nil => intro _; rfl
    | cons c pre ih =>
      intro h
      have hc : c = .ok () := h c (List.mem_cons_self c pre)
      subst hc
      exact ih (fun x hx => h x (List.mem_cons_of_mem _ hx))
  · intro e st now; rfl

/-- C9 witness: a queue whose second callback raises: the error is logged,
the tail survives to the next tick, and the tick rescheduled. -/
theorem ui_tick_catches_faults_check :
    process_ui_queue [.ok (), .error ("boom"), .ok ()]
      = (some ("boom"), [.ok ()], true) :=
  ui_tick_catches_faults.2.2.1 [.ok ()] ("boom") [.ok ()]
    (by intro c hc
        simp only [List.mem_singleton] at hc
        exact hc)

/-- C2 counterexample: with the primary remote client always raising a
No-active-device error and the Windows fallback available, the fallback is
invoked exactly once, but a user-visible "No Active Device" warning dialog
IS scheduled (by _handle_spotify_api_error, before the fallback runs) --
refuting the claim that no user-visible error notification is produced. -/
theorem toggle_fallback_dialog_cex :
    (toggle_control_task (some all_fail_no_device) true false idle_store).2.secondary_calls = 1
  ∧ (toggle_control_task (some all_fail_no_device) true false idle_store).2.dialogs ≠ [] := by
  decide

/-- C2 amended: when every primary attempt fails with NoActiveDevice and the
local backend is available, the local fallback action is invoked exactly
once, exactly one user-visible "No Active Device" warning dialog is
scheduled, and the store is untouched. -/
theorem toggle_fallback_secondary_once (b : RemoteBackend) (cached : Bool)
    (st : Store)
    (hp : b.pause_playback = .error .noActiveDevice)
    (hs : b.start_playback = .error .noActiveDevice)
    (hc : b.current_playback = .error .noActiveDevice
          ∨ ∃ pb, b.current_playback = .ok pb) :
    (toggle_control_task (some b) true cached st).2.secondary_calls = 1
  ∧ (toggle_control_task (some b) true cached st).2.dialogs
      = [Dialog.warnNoActiveDevice ("play/pause")]
  ∧ (toggle_control_task (some b) true cached st).1 = st := by
  rcases hc with hc | ⟨pb, hc⟩
  · simp [toggle_control_task, hc, handle_spotify_api_error]
  · simp only [toggle_control_task, hc]
    rcases pb with _ | p
    · simp [hs, handle_spotify_api_error]
    · cases hpl : p.is_playing
      · simp [hpl, hs, handle_spotify_api_error]
      · simp [hpl, hp, handle_spotify_api_error]

/-- C2 witness: the all-failing client with fallback available. -/
theorem toggle_fallback_secondary_once_check :
    (toggle_control_task (some all_fail_no_device) true true idle_store).2.secondary_calls = 1
  ∧ (toggle_control_task (some all_fail_no_device) true true idle_store).2.dialogs
      = [Dialog.warnNoActiveDevice ("play/pause")]
  ∧ (toggle_control_task (some all_fail_no_device) true true idle_store).1 = idle_store :=
  toggle_fallback_secondary_once all_fail_no_device true idle_store rfl rfl (Or.inl rfl)

/-- C3 counterexample: a toggle command whose primary attempt succeeds (the
fresh query reports playing, pause_playback is called once and succeeds, no
dialog): the worker leaves the store exactly as it was (isPlaying not
flipped) and enqueues no render request -- refuting the claim that on
primary success the dispatcher updates the Store and enqueues a render
request. -/
theorem transport_optimistic_update_cex :
    (toggle_control_task (some playing_ok_backend) true true idle_store).1 = idle_store
  ∧ (toggle_control_task (some playing_ok_backend) true true idle_store).2.pause_calls = 1
  ∧ (toggle_control_task (some playing_ok_backend) true true idle_store).2.dialogs = []
  ∧ (toggle_control_task (some playing_ok_backend) true true idle_store).2.render_requests = 0 := by
  decide

/-- C3 amended: none of the three transport command workers (togglePlayPause,
next, previous) ever writes the shared playback Store or enqueues a render
request -- on success or on failure; the Store and the view catch up only on
the next poll cycle. -/
theorem transport_workers_leave_store_alone (sp : Option RemoteBackend)
    (win cached : Bool) (st : Store) :
    ((toggle_control_task sp win cached st).1 = st
      ∧ (toggle_control_task sp win cached st).2.render_requests = 0)
  ∧ ((next_control_task sp win st).1 = st
      ∧ (next_control_task sp win st).2.render_requests = 0)
  ∧ ((prev_control_task sp win st).1 = st
      ∧ (prev_control_task sp win st).2.render_requests = 0) := by
  refine ⟨?_, ?_, ?_⟩
  · cases sp with
    | none => exact ⟨rfl, rfl⟩
    | some b =>
      cases hq : b.current_playback with
      | error e => simp [toggle_control_task, hq]
      | ok pb =>
        simp only [toggle_control_task, hq]
        rcases pb with _ | p
        · cases hsp : b.start_playback <;> simp [hsp]
        · cases hpl : p.is_playing
          · cases hsp : b.start_playback <;> simp [hpl, hsp]
          · cases hpp : b.pause_playback <;> simp [hpl, hpp]
  · cases sp with
    | none => exact ⟨rfl, rfl⟩
    | some b => cases hn : b.next_track_call <;> simp [next_control_task, hn]
  · cases sp with
    | none => exact ⟨rfl, rfl⟩
    | some b => cases hn : b.previous_track_call <;> simp [prev_control_task, hn]

/-- C10: the toggle worker issues exactly one fresh current_playback query;
its outcome is independent of the widget's cached is_playing flag; and it
attempts pause exactly when the fresh query reports an actively playing
session, otherwise it attempts start_playback. -/
theorem toggle_uses_fresh_query (b : RemoteBackend) (pb : Option Playback)
    (win c1 c2 : Bool) (st : Store) (hq : b.current_playback = .ok pb) :
    toggle_control_task (some b) win c1 st = toggle_control_task (some b) win c2 st
  ∧ (toggle_control_task (some b) win c1 st).2.query_calls = 1
  ∧ (0 < (toggle_control_task (some b) win c1 st).2.pause_calls
      ↔ ∃ p, pb = some p ∧ p.is_playing = true)
  ∧ (0 < (toggle_control_task (some b) win c1 st).2.start_calls
      ↔ ¬ ∃ p, pb = some p ∧ p.is_playing = true) := by
  refine ⟨rfl, ?_, ?_, ?_⟩
  · simp only [toggle_control_task, hq]
    rcases pb with _ | p
    · cases h : b.start_playback <;> simp [h]
    · cases hpl : p.is_playing
      · cases h : b.start_playback <;> simp [hpl, h]
      · cases h : b.pause_playback <;> simp [hpl, h]
  · simp only [toggle_control_task, hq]
    rcases pb with _ | p
    · cases h : b.start_playback <;> simp [h]
    · cases hpl : p.is_playing
      · cases h : b.start_playback <;> simp [hpl, h]
      · cases h : b.pause_playback <;> simp [hpl, h]
  · simp only [toggle_control_task, hq]
    rcases pb with _ | p
    · cases h : b.start_playback <;> simp [h]
    · cases hpl : p.is_playing
      · cases h : b.start_playback <;> simp [hpl, h]
      · cases h : b.pause_playback <;> simp [hpl, h]

/-- C10 witness: a client whose fresh query reports playing: the pause path
is taken (pause_calls positive). -/
theorem toggle_uses_fresh_query_check :
    playing_ok_backend.current_playback
      = .ok (some { item := none, is_playing := true, progress_ms := 0 })
  ∧ (0 < (toggle_control_task (some playing_ok_backend) true true idle_store).2.pause_calls
      ↔ ∃ p, (some { item := none, is_playing := true, progress_ms := 0 } : Option Playback)
              = some p ∧ p.is_playing = true) :=
  ⟨rfl, (toggle_uses_fresh_query playing_ok_backend
          (some { item := none, is_playing := true, progress_ms := 0 })
          true true false idle_store rfl).2.2.1⟩

/-- C1: for a snapshot with progressMs = p, durationMs = d (at least 1) and
observation time t0, a tick at local time now (not before t0) displays the
fill fraction min((p + (now - t0) * 1000) / d, 1); scaled by the duration
this is exactly min(d, p + elapsedMs), which lies in [0, d]; ticks at
increasing local times give a non-decreasing fraction capped at 1. -/
theorem progress_extrapolation_clamped (p d : Nat) (t0 now now' : ℚ)
    (hd : 1 ≤ d) (h0 : t0 ≤ now) (h1 : now ≤ now') :
    animate_progress_fraction (snapshot_dict p d t0) now
        = min (((p : ℚ) + (now - t0) * 1000) / (d : ℚ)) 1
  ∧ animate_progress_fraction (snapshot_dict p d t0) now * (d : ℚ)
        = min (d : ℚ) ((p : ℚ) + (now - t0) * 1000)
  ∧ 0 ≤ min (d : ℚ) ((p : ℚ) + (now - t0) * 1000)
  ∧ min (d : ℚ) ((p : ℚ) + (now - t0) * 1000) ≤ (d : ℚ)
  ∧ animate_progress_fraction (snapshot_dict p d t0) now
      ≤ animate_progress_fraction (snapshot_dict p d t0) now'
  ∧ animate_progress_fraction (snapshot_dict p d t0) now' ≤ 1 := by
  have hdQ : (1 : ℚ) ≤ (d : ℚ) := by exact_mod_cast hd
  have hd0 : (0 : ℚ) < (d : ℚ) := lt_of_lt_of_le one_pos hdQ
  have hmax : max (1 : ℚ) ((d : ℚ)) = (d : ℚ) := max_eq_right hdQ
  have hfrac : ∀ t : ℚ, animate_progress_fraction (snapshot_dict p d t0) t
      = min (((p : ℚ) + (t - t0) * 1000) / (d : ℚ)) 1 := by
    intro t
    simp only [animate_progress_fraction, snapshot_dict, Option.getD_some]
    rw [hmax]
  have hE : 0 ≤ (now - t0) * 1000 := mul_nonneg (sub_nonneg.mpr h0) (by norm_num)
  have hcur : (0 : ℚ) ≤ (p : ℚ) + (now - t0) * 1000 :=
    add_nonneg (Nat.cast_nonneg p) hE
  refine ⟨hfrac now, ?_, le_min (le_of_lt hd0) hcur, min_le_left _ _, ?_, ?_⟩
  · rw [hfrac now]
    rcases le_total ((p : ℚ) + (now - t0) * 1000) (d : ℚ) with h | h
    · rw [min_eq_left ((div_le_one hd0).mpr h), div_mul_cancel₀ _ (ne_of_gt hd0),
        min_eq_right h]
    · rw [min_eq_right ((one_le_div hd0).mpr h), one_mul, min_eq_left h]
  · rw [hfrac now, hfrac now']
    have hmono : ((p : ℚ) + (now - t0) * 1000) / (d : ℚ)
        ≤ ((p : ℚ) + (now' - t0) * 1000) / (d : ℚ) := by
      rw [div_le_div_iff₀ hd0 hd0]
      nlinarith
    exact min_le_min hmono le_rfl
  · rw [hfrac now']
    exact min_le_right _ _

/-- C1 witness: a 2000 ms track observed at progress 1000 ms, ticks one and
two seconds later: at the first tick the extrapolated progress saturates at
the duration, and the fraction does not decrease at the second tick. -/
theorem progress_extrapolation_clamped_check :
    animate_progress_fraction (snapshot_dict 1000 2000 0) 1 * ((2000 : Nat) : ℚ)
        = min ((2000 : Nat) : ℚ) (((1000 : Nat) : ℚ) + ((1 : ℚ) - 0) * 1000)
  ∧ animate_progress_fraction (snapshot_dict 1000 2000 0) 1
      ≤ animate_progress_fraction (snapshot_dict 1000 2000 0) 2 :=
  ⟨(progress_extrapolation_clamped 1000 2000 0 1 2 (by norm_num) (by norm_num)
      (by norm_num)).2.1,
   (progress_extrapolation_clamped 1000 2000 0 1 2 (by norm_num) (by norm_num)
      (by norm_num)).2.2.2.2.1⟩

/-- C4 counterexample: the extrapolation reads time.time(), the adjustable
wall clock.  Two executions over the same snapshot that differ only by a
10-second wall-clock adjustment applied between the poll observation and the
animation tick (the tick reads 20 instead of 10) display different
progress -- refuting the claim that the displayed progress is invariant
under wall-clock adjustments. -/
theorem wall_clock_adjustment_cex :
    animate_progress_fraction (snapshot_dict 0 200000 0) 10
      ≠ animate_progress_fraction (snapshot_dict 0 200000 0) (10 + 10) := by
  simp only [animate_progress_fraction, snapshot_dict, Option.getD_some]
  rw [max_eq_right (by norm_num : (1 : ℚ) ≤ ((200000 : Nat) : ℚ)), min_def, min_def]
  norm_num

/-- C4 amended: the extrapolation is computed from the wall clock
(time.time()), not a monotonic clock: a positive wall-clock adjustment of
delta seconds applied between the poll observation and the animation tick
strictly increases the displayed progress whenever the adjusted
extrapolation has not yet saturated at the duration (the bar jumps forward
with the clock). -/
theorem wall_clock_adjustment_shifts (p d : Nat) (t0 now δ : ℚ)
    (hd : 1 ≤ d) (hδ : 0 < δ)
    (hsat : (p : ℚ) + (now + δ - t0) * 1000 ≤ (d : ℚ)) :
    animate_progress_fraction (snapshot_dict p d t0) now
      < animate_progress_fraction (snapshot_dict p d t0) (now + δ) := by
  have hdQ : (1 : ℚ) ≤ (d : ℚ) := by exact_mod_cast hd
  have hd0 : (0 : ℚ) < (d : ℚ) := lt_of_lt_of_le one_pos hdQ
  have hmax : max (1 : ℚ) ((d : ℚ)) = (d : ℚ) := max_eq_right hdQ
  have hlt : (p : ℚ) + (now - t0) * 1000 < (p : ℚ) + (now + δ - t0) * 1000 := by
    nlinarith
  have h1 : (p : ℚ) + (now - t0) * 1000 ≤ (d : ℚ) := le_of_lt (lt_of_lt_of_le hlt hsat)
  simp only [animate_progress_fraction, snapshot_dict, Option.getD_some]
  rw [hmax, min_eq_left ((div_le_one hd0).mpr h1),
    min_eq_left ((div_le_one hd0).mpr hsat), div_lt_div_iff₀ hd0 hd0]
  nlinarith

/-- C4 amended witness: a 200-second track at progress 0, tick 10 seconds
after observation, wall clock adjusted forward by 10 seconds in between: the
displayed fraction strictly increases. -/
theorem wall_clock_adjustment_shifts_check :
    (1 ≤ 200000)
  ∧ ((0 : ℚ) < 10)
  ∧ (((0 : Nat) : ℚ) + ((10 : ℚ) + 10 - 0) * 1000 ≤ ((200000 : Nat) : ℚ))
  ∧ animate_progress_fraction (snapshot_dict 0 200000 0) 10
      < animate_progress_fraction (snapshot_dict 0 200000 0) (10 + 10) :=
  ⟨by norm_num, by norm_num, by norm_num,
   wall_clock_adjustment_shifts 0 200000 0 10 10 (by norm_num) (by norm_num)
     (by norm_num)⟩

/-- Helper: dict assignment grows the association list by at most one. -/
theorem dict_set_length_le {K V : Type} [DecidableEq K] (c : List (K × V))
    (k : K) (v : V) : (dict_set c k v).length ≤ c.length + 1 := by
  rw [dict_set]
  split
  · rw [List.length_map]
    omega
  · rw [List.length_append]
    simp

/-- Helper: after a dict assignment, looking up the assigned key finds the
assigned value. -/
theorem album_art_cache_get_set_self {K V : Type} [DecidableEq K]
    (c : List (K × V)) (k : K) (v : V) :
    album_art_cache_get (dict_set c k v) k = some v := by
  rw [album_art_cache_get, dict_set]
  split
  · next hany =>
    have key : ∀ l : List (K × V), l.any (fun p => decide (p.1 = k)) = true →
        (l.map (fun p => if p.1 = k then (k, v) else p)).find?
            (fun p => decide (p.1 = k)) = some (k, v) := by
      intro l
      induction l with
      | nil => intro h; cases h
      | cons a l ih =>
        intro h
        by_cases hk : a.1 = k
        · simp [List.find?_cons, hk]
        · have h' : l.any (fun p => decide (p.1 = k)) = true := by
            simp only [List.any_cons, Bool.or_eq_true, decide_eq_true_eq] at h
            rcases h with h | h
            · exact absurd h hk
            · exact h
          simp [List.find?_cons, hk, ih h']
    rw [key c hany]
    rfl
  · next hany =>
    have hnone : c.find? (fun p => decide (p.1 = k)) = none := by
      rw [List.find?_eq_none]
      intro x hx hdec
      exact hany (List.any_eq_true.mpr ⟨x, hx, hdec⟩)
    rw [List.find?_append, hnone]
    simp

/-- Helper: a dict assignment to key k does not change the lookup of any
other key j. -/
theorem album_art_cache_get_set_ne {K V : Type} [DecidableEq K]
    (c : List (K × V)) (k j : K) (v : V) (hjk : j ≠ k) :
    album_art_cache_get (dict_set c k v) j = album_art_cache_get c j := by
  have hkj : ¬(k = j) := fun h => hjk h.symm
  rw [album_art_cache_get, album_art_cache_get, dict_set]
  split
  · have key : ∀ l : List (K × V),
        (l.map (fun p => if p.1 = k then (k, v) else p)).find?
            (fun p => decide (p.1 = j))
          = l.find? (fun p => decide (p.1 = j)) := by
      intro l
      induction l with
      | nil => rfl
      | cons a l ih =>
        by_cases hk : a.1 = k
        · have haj : ¬(a.1 = j) := by rw [hk]; exact hkj
          rw [List.map_cons, if_pos hk,
            List.find?_cons_of_neg _ (by simpa using hkj), ih,
            List.find?_cons_of_neg _ (by simpa using haj)]
        · by_cases haj : a.1 = j
          · rw [List.map_cons, if_neg hk,
              List.find?_cons_of_pos _ (by simpa using haj),
              List.find?_cons_of_pos _ (by simpa using haj)]
          · rw [List.map_cons, if_neg hk,
              List.find?_cons_of_neg _ (by simpa using haj), ih,
              List.find?_cons_of_neg _ (by simpa using haj)]
    rw [key c]
  · rw [List.find?_append]
    have h2 : ([(k, v)] : List (K × V)).find? (fun p => decide (p.1 = j)) = none := by
      simp [List.find?_cons, hkj]
    rw [h2]
    cases c.find? (fun p => decide (p.1 = j)) <;> rfl

/-- C5: in reduced-resource (LOW_END_MODE) operation, inserting six distinct
artwork identifiers into the empty cache evicts exactly the first-inserted
identifier (its get returns nothing) while the five most recent remain; an
insertion never grows a cache of at most five entries beyond five; and in
normal mode an insertion never evicts: it is plain dict assignment, every
other key keeps its value and the inserted key maps to the inserted value. -/
theorem artwork_cache_fifo (k0 k1 k2 k3 k4 k5 v0 v1 v2 v3 v4 v5 : Nat)
    (h : ([k0, k1, k2, k3, k4, k5] : List Nat).Nodup) :
    (album_art_cache_get (cache_after_puts true
        [(k0, v0), (k1, v1), (k2, v2), (k3, v3), (k4, v4), (k5, v5)] []) k0 = none
     ∧ album_art_cache_get (cache_after_puts true
        [(k0, v0), (k1, v1), (k2, v2), (k3, v3), (k4, v4), (k5, v5)] []) k1 = some v1
     ∧ album_art_cache_get (cache_after_puts true
        [(k0, v0), (k1, v1), (k2, v2), (k3, v3), (k4, v4), (k5, v5)] []) k2 = some v2
     ∧ album_art_cache_get (cache_after_puts true
        [(k0, v0), (k1, v1), (k2, v2), (k3, v3), (k4, v4), (k5, v5)] []) k3 = some v3
     ∧ album_art_cache_get (cache_after_puts true
        [(k0, v0), (k1, v1), (k2, v2), (k3, v3), (k4, v4), (k5, v5)] []) k4 = some v4
     ∧ album_art_cache_get (cache_after_puts true
        [(k0, v0), (k1, v1), (k2, v2), (k3, v3), (k4, v4), (k5, v5)] []) k5 = some v5)
  ∧ (∀ (c : List (Nat × Nat)) (k v : Nat), c.length ≤ 5 →
      (album_art_cache_put true c k v).length ≤ 5)
  ∧ (∀ (c : List (Nat × Nat)) (k v : Nat),
      album_art_cache_put false c k v = dict_set c k v)
  ∧ (∀ (c : List (Nat × Nat)) (k v j : Nat), j ≠ k →
      album_art_cache_get (album_art_cache_put false c k v) j
        = album_art_cache_get c j)
  ∧ (∀ (c : List (Nat × Nat)) (k v : Nat),
      album_art_cache_get (album_art_cache_put false c k v) k = some v) := by
  have hput : ∀ (c : List (Nat × Nat)) (k v : Nat),
      album_art_cache_put false c k v = dict_set c k v := by
    intro c k v
    simp [album_art_cache_put]
  refine ⟨?_, ?_, hput, ?_, ?_⟩
  · simp only [List.nodup_cons, List.mem_cons, List.not_mem_nil, or_false,
      not_or, List.nodup_nil, and_true] at h
    obtain ⟨⟨h01, h02, h03, h04, h05⟩, ⟨h12, h13, h14, h15⟩,
      ⟨h23, h24, h25⟩, ⟨h34, h35⟩, h45, -⟩ := h
    simp only [cache_after_puts, List.foldl_cons, List.foldl_nil]
    simp [album_art_cache_put, dict_set, album_art_cache_get,
      h01, h02, h03, h04, h05, h12, h13, h14, h15, h23, h24, h25, h34, h35, h45,
      Ne.symm h01, Ne.symm h02, Ne.symm h03, Ne.symm h04, Ne.symm h05,
      Ne.symm h12, Ne.symm h13, Ne.symm h14, Ne.symm h15, Ne.symm h23,
      Ne.symm h24, Ne.symm h25, Ne.symm h34, Ne.symm h35, Ne.symm h45]
  · intro c k v hlen
    have h1 := dict_set_length_le c k v
    simp only [album_art_cache_put]
    split
    · rw [List.length_drop]
      omega
    · next hcond =>
      have h5 : ¬ 5 < (dict_set c k v).length := fun hh => hcond ⟨trivial, hh⟩
      omega
  · intro c k v j hjk
    rw [hput]
    exact album_art_cache_get_set_ne c k j v hjk
  · intro c k v
    rw [hput]
    exact album_art_cache_get_set_self c k v

/-- C5 witness: six distinct identifiers 0..5 with values 10..15: the first
is evicted, the last remains. -/
theorem artwork_cache_fifo_check :
    (([0, 1, 2, 3, 4, 5] : List Nat).Nodup)
  ∧ album_art_cache_get (cache_after_puts true
      [(0, 10), (1, 11), (2, 12), (3, 13), (4, 14), (5, 15)] []) 0 = none
  ∧ album_art_cache_get (cache_after_puts true
      [(0, 10), (1, 11), (2, 12), (3, 13), (4, 14), (5, 15)] []) 5 = some 15 := by
  refine ⟨by decide, ?_, ?_⟩
  · exact (artwork_cache_fifo 0 1 2 3 4 5 10 11 12 13 14 15 (by decide)).1.1
  · exact (artwork_cache_fifo 0 1 2 3 4 5 10 11 12 13 14 15 (by decide)).1.2.2.2.2.2
